import Mathlib

/-!
Shallow embedding of the poolprovider-for-k8s web server (`main.go`).

The program is a small HTTP front end: a `net/http` ServeMux with five
registered routes (`/`, `/ping`, `/version`, `/payload`, `/kubecreate`),
a Storage capability whose `Ping` probes a Redis backend, and an opaque
external pod-creation operation (`CreatePod`, defined outside `main.go`).

Requests are modelled as snapshots (method, path, header list in the map
iteration order observed by the handler, body-read outcome); handlers are
pure functions from a request (plus their injected capability) to a
response.  The gorilla `LoggingHandler` wrapper is a pure side channel
(it writes a log line and does not alter the response), so it is not part
of the response model.
-/

namespace PoolK8s

/-- `Name` constant from `main.go` (line 16). -/
def Name : String := "divman's GoServer"

/-- `Version` constant from `main.go` (line 18). -/
def Version : String := "1.0.0"

/-- HTTP status codes used by the program (`net/http` constants). -/
def statusOK : Nat := 200

def statusSeeOther : Nat := 303

def statusNotFound : Nat := 404

def statusInternalServerError : Nat := 500

/-- A request snapshot as a handler observes it: method, URL path,
the header mapping (one entry per header key, in the iteration order the
Go map range produces for this request, each key with its values in
arrival order), and the outcome of `ioutil.ReadAll(req.Body)` —
`Except.error e` when the body stream fails, `Except.ok b` with the full
body bytes (rendered as text) otherwise. -/
structure HttpRequest where
  method : String
  path : String
  headers : List (String × List String)
  body : Except String String
deriving Repr

/-- A completed response: status code, the `Location` header if any was
set, and the body bytes written. -/
structure HttpResponse where
  status : Nat
  location : Option String
  body : String
deriving Repr, DecidableEq

/-- Character class skipped by `fmt` between `%` and the verb when no
operands are supplied: the flags `#0+- `(space), width digits and the
precision dot.  (The `*` and `[` directives consume operands and do not
occur in the strings this development evaluates.) -/
def isFmtFlagOrNum (c : Char) : Bool :=
  c = '#' || c = '0' || c = '+' || c = '-' || c = ' ' || c = '.' || c.isDigit

/-- Go's `fmt` format-string scan for a call with zero operands, as in
`fmt.Fprintf(resp, err.Error())` (`main.go` line 63): literal characters
are copied; `%%` prints `%`; a verb with no operand left prints
`%!<verb>(MISSING)`; a `%` ending the string prints `%!(NOVERB)`.
The `Bool` is true while inside a `%` directive (flags parsed, verb
pending). -/
def fprintfRun : Bool → List Char → List Char
  | false, [] => []
  | false, '%' :: rest => fprintfRun true rest
  | false, c :: rest => c :: fprintfRun false rest
  | true, [] => '%' :: '!' :: String.toList "(NOVERB)"
  | true, c :: rest =>
    if isFmtFlagOrNum c then fprintfRun true rest
    else if c = '%' then '%' :: fprintfRun false rest
    else '%' :: '!' :: c :: (String.toList "(MISSING)" ++ fprintfRun false rest)

/-- What `fmt.Fprintf(w, s)` writes: `s` interpreted as a format string
with no operands. -/
def fprintfNoArgs (s : String) : String :=
  String.mk (fprintfRun false s.toList)

/-- `RootHandler` (`main.go` lines 50-52): `http.Redirect` to `/ping`
with status 303.  `http.Redirect` sets the `Location` header, writes the
status, and writes a short HTML hyperlink body for GET requests only. -/
def RootHandler (req : HttpRequest) : HttpResponse :=
  { status := statusSeeOther
  , location := some "/ping"
  , body := if req.method = "GET" then "<a href=\"/ping\">See Other</a>.\n\n" else "" }

/-- `PingHandler` (`main.go` lines 58-69), applied to the outcome of
`s.Ping()`: on error, status 500 and `fmt.Fprintf(resp, err.Error())`;
on success, status 200 and `fmt.Fprintln(resp, res)` (result plus one
newline). -/
def PingHandler (ping : Except String String) (_req : HttpRequest) : HttpResponse :=
  match ping with
  | .error e => { status := statusInternalServerError, location := none, body := fprintfNoArgs e }
  | .ok res => { status := statusOK, location := none, body := res ++ "\n" }

/-- `VersionHandler` (`main.go` lines 73-76): status 200 and
`fmt.Fprintf(resp, "%s v%s\n", Name, Version)`. -/
def VersionHandler (_req : HttpRequest) : HttpResponse :=
  { status := statusOK, location := none, body := Name ++ " v" ++ Version ++ "\n" }

/-- The header dump loop of `PayloadHandler` (`main.go` lines 94-99):
for each key in iteration order, for each of its values in arrival
order, append `key: value` and a newline to the response written so
far. -/
def payloadHeaderBlock (hs : List (String × List String)) : String :=
  hs.foldl (fun acc kv => kv.2.foldl (fun a v => a ++ kv.1 ++ ": " ++ v ++ "\n") acc) ""

/-- `PayloadHandler` (`main.go` lines 80-104): on body-read failure,
status 500 and nothing written; otherwise status 200, then the method
line, then (only when the header map is non-empty) a `Headers:` label
line followed by one line per header value, then
`Payload: <body>` with no trailing newline. -/
def PayloadHandler (req : HttpRequest) : HttpResponse :=
  match req.body with
  | .error _ => { status := statusInternalServerError, location := none, body := "" }
  | .ok b =>
    { status := statusOK
    , location := none
    , body := "Method: " ++ req.method ++ "\n"
        ++ (if req.headers.length > 0 then "Headers:\n" ++ payloadHeaderBlock req.headers else "")
        ++ "Payload: " ++ b }

/-- Modelled from the spec: `CreatePod` is defined outside `main.go`
("the orchestration-platform pod-creation call (treated as an opaque
external operation returning a textual result)").  Its observable
outcome is the textual result the handler prints; whether the
underlying operation actually succeeded is carried alongside but,
per the spec, "errors from the external operation itself are not
distinguished from success in current behavior". -/
structure PodOp where
  text : String
  succeeded : Bool
deriving Repr, DecidableEq

/-- `KubernetesCreateHandler` (`main.go` lines 106-116): on body-read
failure, status 500 and nothing written (the handler returns before
calling `CreatePod`); otherwise `CreatePod` is called exactly once
(`var pods = CreatePod()`) and `Pods: <result>` is written, with the
implicit default status 200 supplied by the first write.  The second
component counts the `CreatePod` invocations the handler performs:
`0` on the early return, `1` on the single call site. -/
def KubernetesCreateHandler (createPod : PodOp) (req : HttpRequest) : HttpResponse × Nat :=
  match req.body with
  | .error _ => ({ status := statusInternalServerError, location := none, body := "" }, 0)
  | .ok _ => ({ status := statusOK, location := none, body := "Pods: " ++ createPod.text }, 1)

/-- The five handlers registered on the ServeMux (`main.go` lines 32-37). -/
inductive RouteTag where
  | root
  | ping
  | version
  | payload
  | kubecreate
deriving Repr, DecidableEq

/-- The route table, in registration order (`main.go` lines 33-37). -/
def routes : List (String × RouteTag) :=
  [("/", .root), ("/ping", .ping), ("/version", .version),
   ("/payload", .payload), ("/kubecreate", .kubecreate)]

/-- `ServeMux`'s test `pattern[len(pattern)-1] == '/'`, transliterated
onto the character list (all registered patterns are ASCII, so the last
byte is `/` exactly when the last character is). -/
def lastIsSlash (s : String) : Bool :=
  s.toList.getLast? == some '/'

/-- `ServeMux.pathMatch` for a slash-terminated pattern:
`len(path) >= n && path[0:n] == pattern`, i.e. the pattern is a prefix
of the path, transliterated onto character lists. -/
def pathHasPre (pat p : String) : Bool :=
  pat.toList.isPrefixOf p.toList

/-- The patterns ending in a slash, which `net/http.ServeMux` also keeps
in a list sorted by descending pattern length for prefix matching; here
only the pattern `/` ends in a slash, so no sorting is needed. -/
def slashRoutes : List (String × RouteTag) :=
  routes.filter (fun r => lastIsSlash r.1)

/-- `ServeMux` handler resolution for an (already cleaned) request path:
first an exact-match lookup among all registered patterns, then the
longest registered pattern that ends in `/` and is a prefix of the path;
`none` means no pattern matched and the mux's `NotFoundHandler` runs. -/
def muxFind (p : String) : Option RouteTag :=
  match routes.find? (fun r => r.1 == p) with
  | some r => some r.2
  | none => (slashRoutes.find? (fun r => pathHasPre r.1 p)).map (fun r => r.2)

/-- The response `http.NotFoundHandler` produces when no pattern matches. -/
def notFoundResponse : HttpResponse :=
  { status := statusNotFound, location := none, body := "404 page not found\n" }

/-- The capabilities injected into the handlers for one request: the
outcome `s.Ping()` would return (`Storage` capability) and the outcome
of the opaque external `CreatePod` operation. -/
structure Env where
  pingResult : Except String String
  podOp : PodOp
deriving Repr

/-- One request through the server: ServeMux dispatch to the unique
matching handler.  The second component counts `CreatePod` invocations
performed while serving the request (only the `/kubecreate` handler
references `CreatePod`). -/
def serve (env : Env) (req : HttpRequest) : HttpResponse × Nat :=
  match muxFind req.path with
  | some .root => (RootHandler req, 0)
  | some .ping => (PingHandler env.pingResult req, 0)
  | some .version => (VersionHandler req, 0)
  | some .payload => (PayloadHandler req, 0)
  | some .kubecreate => KubernetesCreateHandler env.podOp req
  | none => (notFoundResponse, 0)

/-- `os.Getenv` over an explicit environment: the empty string stands
for an unset variable, exactly as in Go. -/
def Getenv (environ : String → Option String) (key : String) : String :=
  (environ key).getD ""

/-- `EnvOrDefault` (`main.go` lines 123-130): start from the fallback;
if `os.Getenv(env)` is non-empty, use it instead. -/
def EnvOrDefault (environ : String → Option String) (env fallback : String) : String :=
  let value := fallback
  let v := Getenv environ env
  if v ≠ "" then v else value

/-- The header lines the payload dump emits, flattened: one entry per
header value, keys in iteration order, values within a key in arrival
order. -/
def emittedHeaderLines (hs : List (String × List String)) : List String :=
  hs.flatMap (fun kv => kv.2.map (fun v => kv.1 ++ ": " ++ v))

/-- Concatenation of a list of strings, in order. -/
def strJoin : List String → String
  | [] => ""
  | s :: rest => s ++ strJoin rest

/-! ### Dispatch lemmas: which handler the mux resolves for each path -/

lemma serve_root (env : Env) (req : HttpRequest) (hp : req.path = "/") :
    serve env req = (RootHandler req, 0) := by
  unfold serve; rw [hp]; rfl

lemma serve_ping (env : Env) (req : HttpRequest) (hp : req.path = "/ping") :
    serve env req = (PingHandler env.pingResult req, 0) := by
  unfold serve; rw [hp]; rfl

lemma serve_version (env : Env) (req : HttpRequest) (hp : req.path = "/version") :
    serve env req = (VersionHandler req, 0) := by
  unfold serve; rw [hp]; rfl

lemma serve_payload (env : Env) (req : HttpRequest) (hp : req.path = "/payload") :
    serve env req = (PayloadHandler req, 0) := by
  unfold serve; rw [hp]; rfl

lemma serve_kubecreate (env : Env) (req : HttpRequest) (hp : req.path = "/kubecreate") :
    serve env req = KubernetesCreateHandler env.podOp req := by
  unfold serve; rw [hp]; rfl

/-- A path that starts with `/` but is none of the five registered paths
fails the exact-match lookup and is then prefix-matched by the catch-all
pattern `/`: the mux resolves `RootHandler`, never `NotFoundHandler`. -/
lemma muxFind_catchall (p : String) (h0 : pathHasPre "/" p = true)
    (h1 : p ≠ "/") (h2 : p ≠ "/ping") (h3 : p ≠ "/version")
    (h4 : p ≠ "/payload") (h5 : p ≠ "/kubecreate") :
    muxFind p = some RouteTag.root := by
  have b1 : (("/" : String) == p) = false := beq_eq_false_iff_ne.mpr (Ne.symm h1)
  have b2 : (("/ping" : String) == p) = false := beq_eq_false_iff_ne.mpr (Ne.symm h2)
  have b3 : (("/version" : String) == p) = false := beq_eq_false_iff_ne.mpr (Ne.symm h3)
  have b4 : (("/payload" : String) == p) = false := beq_eq_false_iff_ne.mpr (Ne.symm h4)
  have b5 : (("/kubecreate" : String) == p) = false := beq_eq_false_iff_ne.mpr (Ne.symm h5)
  have hexact : routes.find? (fun r => r.1 == p) = none := by
    simp only [routes, List.find?_cons, List.find?_nil, b1, b2, b3, b4, b5]
  have hslash : slashRoutes.find? (fun r => pathHasPre r.1 p) = some ("/", RouteTag.root) := by
    have hsl : slashRoutes = [("/", RouteTag.root)] := by decide
    simp only [hsl, List.find?_cons, h0]
  unfold muxFind
  rw [hexact, hslash]
  rfl

lemma serve_catchall (env : Env) (req : HttpRequest) (h0 : pathHasPre "/" req.path = true)
    (h1 : req.path ≠ "/") (h2 : req.path ≠ "/ping") (h3 : req.path ≠ "/version")
    (h4 : req.path ≠ "/payload") (h5 : req.path ≠ "/kubecreate") :
    serve env req = (RootHandler req, 0) := by
  unfold serve
  rw [muxFind_catchall req.path h0 h1 h2 h3 h4 h5]

/-! ### String-concatenation lemmas for the payload dump -/

lemma strJoin_append (l1 l2 : List String) :
    strJoin (l1 ++ l2) = strJoin l1 ++ strJoin l2 := by
  induction l1 with
  | nil => simp [strJoin, String.empty_append]
  | cons s t ih => simp [strJoin, ih, String.append_assoc]

lemma foldl_header_line (k : String) (vs : List String) (acc : String) :
    vs.foldl (fun a v => a ++ k ++ ": " ++ v ++ "\n") acc
      = acc ++ strJoin (vs.map (fun v => k ++ ": " ++ v ++ "\n")) := by
  induction vs generalizing acc with
  | nil => simp [strJoin, String.append_empty]
  | cons v t ih =>
    simp only [List.foldl_cons, List.map_cons, strJoin]
    rw [ih]
    simp [String.append_assoc]

lemma payloadHeaderBlock_aux (hs : List (String × List String)) (acc : String) :
    hs.foldl (fun acc kv => kv.2.foldl (fun a v => a ++ kv.1 ++ ": " ++ v ++ "\n") acc) acc
      = acc ++ strJoin ((emittedHeaderLines hs).map (fun s => s ++ "\n")) := by
  induction hs generalizing acc with
  | nil => simp [emittedHeaderLines, strJoin, String.append_empty]
  | cons kv t ih =>
    simp only [List.foldl_cons, emittedHeaderLines, List.flatMap_cons, List.map_append,
      List.map_map]
    rw [foldl_header_line, ih, strJoin_append, String.append_assoc]
    simp only [emittedHeaderLines, Function.comp_def]

/-- The header dump loop emits exactly one `key: value` line per header
value, keys in iteration order, a key's values in arrival order. -/
lemma payloadHeaderBlock_eq (hs : List (String × List String)) :
    payloadHeaderBlock hs = strJoin ((emittedHeaderLines hs).map (fun s => s ++ "\n")) := by
  have h := payloadHeaderBlock_aux hs ""
  rwa [String.empty_append] at h

lemma PayloadHandler_ok (req : HttpRequest) (b : String) (hb : req.body = Except.ok b) :
    PayloadHandler req = ⟨statusOK, none,
      "Method: " ++ req.method ++ "\n"
        ++ (if req.headers.length > 0 then "Headers:\n" ++ payloadHeaderBlock req.headers else "")
        ++ "Payload: " ++ b⟩ := by
  unfold PayloadHandler
  rw [hb]

/-! ### Claims -/

/-- C1, as stated, is false of the code: the pattern `/` registered on
the ServeMux prefix-matches every path, so a request whose path matches
none of the five registered routes is dispatched to `RootHandler` (a 303
redirect), not to the transport layer's default 404 handling.  At the
concrete path `/nosuch` the served response has status 303, not 404, and
is not the mux's not-found response. -/
theorem c1_counterexample :
    (("/nosuch" : String) ≠ "/" ∧ ("/nosuch" : String) ≠ "/ping" ∧
      ("/nosuch" : String) ≠ "/version" ∧ ("/nosuch" : String) ≠ "/payload" ∧
      ("/nosuch" : String) ≠ "/kubecreate") ∧
    (serve ⟨Except.ok "PONG", ⟨"", true⟩⟩ ⟨"GET", "/nosuch", [], Except.ok ""⟩).1.status = 303 ∧
    (serve ⟨Except.ok "PONG", ⟨"", true⟩⟩ ⟨"GET", "/nosuch", [], Except.ok ""⟩).1.status ≠ 404 ∧
    (serve ⟨Except.ok "PONG", ⟨"", true⟩⟩ ⟨"GET", "/nosuch", [], Except.ok ""⟩).1 ≠ notFoundResponse := by
  decide

/-- C1 (amended): every request whose path begins with `/` and matches
none of the five registered routes is matched by the catch-all pattern
`/` and handled by `RootHandler`: status 303 with `Location: /ping`,
never the transport layer's default 404 handling. -/
theorem c1_unmatched_paths_redirect (env : Env) (req : HttpRequest)
    (h0 : pathHasPre "/" req.path = true)
    (h1 : req.path ≠ "/") (h2 : req.path ≠ "/ping") (h3 : req.path ≠ "/version")
    (h4 : req.path ≠ "/payload") (h5 : req.path ≠ "/kubecreate") :
    (serve env req).1 = RootHandler req ∧
    (serve env req).1.status = 303 ∧
    (serve env req).1.location = some "/ping" ∧
    (serve env req).1.status ≠ 404 := by
  rw [serve_catchall env req h0 h1 h2 h3 h4 h5]
  exact ⟨rfl, rfl, rfl, by show (303 : Nat) ≠ 404; decide⟩

theorem c1_unmatched_paths_redirect_witness :
    (serve ⟨Except.ok "PONG", ⟨"", true⟩⟩ ⟨"GET", "/nosuch", [], Except.ok ""⟩).1
        = RootHandler ⟨"GET", "/nosuch", [], Except.ok ""⟩ ∧
    (serve ⟨Except.ok "PONG", ⟨"", true⟩⟩ ⟨"GET", "/nosuch", [], Except.ok ""⟩).1.status = 303 ∧
    (serve ⟨Except.ok "PONG", ⟨"", true⟩⟩ ⟨"GET", "/nosuch", [], Except.ok ""⟩).1.location
        = some "/ping" ∧
    (serve ⟨Except.ok "PONG", ⟨"", true⟩⟩ ⟨"GET", "/nosuch", [], Except.ok ""⟩).1.status ≠ 404 :=
  c1_unmatched_paths_redirect ⟨Except.ok "PONG", ⟨"", true⟩⟩ ⟨"GET", "/nosuch", [], Except.ok ""⟩
    (by decide) (by decide) (by decide) (by decide) (by decide) (by decide)

/-- C2: whenever the Storage capability's `Ping` returns `Except.ok r`,
a request to `/ping` is answered with status 200 and body `r` followed
by exactly one newline. -/
theorem c2_ping_success (env : Env) (req : HttpRequest) (r : String)
    (hp : req.path = "/ping") (hr : env.pingResult = Except.ok r) :
    (serve env req).1.status = 200 ∧ (serve env req).1.body = r ++ "\n" := by
  rw [serve_ping env req hp, hr]
  exact ⟨rfl, rfl⟩

theorem c2_ping_success_witness :
    (serve ⟨Except.ok "PONG", ⟨"", true⟩⟩ ⟨"GET", "/ping", [], Except.ok ""⟩).1.status = 200 ∧
    (serve ⟨Except.ok "PONG", ⟨"", true⟩⟩ ⟨"GET", "/ping", [], Except.ok ""⟩).1.body
        = "PONG" ++ "\n" :=
  c2_ping_success ⟨Except.ok "PONG", ⟨"", true⟩⟩ ⟨"GET", "/ping", [], Except.ok ""⟩ "PONG" rfl rfl

/-- C3: the claim ("body equal to m verbatim") is the intent, but the
code passes the error message to `fmt.Fprintf` as its format string
(`fmt.Fprintf(resp, err.Error())`, `main.go` line 63), so a message
containing `%` is mangled: a `Ping` error with message `e%d` is answered
with status 500 and body `e%!d(MISSING)`, not `e%d`. -/
theorem c3_ping_error_format_mangling :
    (serve ⟨Except.error "e%d", ⟨"", true⟩⟩ ⟨"GET", "/ping", [], Except.ok ""⟩).1.status = 500 ∧
    (serve ⟨Except.error "e%d", ⟨"", true⟩⟩ ⟨"GET", "/ping", [], Except.ok ""⟩).1.body
        = "e%!d(MISSING)" ∧
    (serve ⟨Except.error "e%d", ⟨"", true⟩⟩ ⟨"GET", "/ping", [], Except.ok ""⟩).1.body ≠ "e%d" := by
  decide

/-- C4: every request to `/` — any method, headers or body — is answered
with status 303 and `Location: /ping`. -/
theorem c4_root_redirect (env : Env) (req : HttpRequest) (hp : req.path = "/") :
    (serve env req).1.status = 303 ∧ (serve env req).1.location = some "/ping" := by
  rw [serve_root env req hp]
  exact ⟨rfl, rfl⟩

theorem c4_root_redirect_witness :
    (serve ⟨Except.error "down", ⟨"", false⟩⟩
        ⟨"POST", "/", [("X-H", ["v"])], Except.ok "ignored"⟩).1.status = 303 ∧
    (serve ⟨Except.error "down", ⟨"", false⟩⟩
        ⟨"POST", "/", [("X-H", ["v"])], Except.ok "ignored"⟩).1.location = some "/ping" :=
  c4_root_redirect ⟨Except.error "down", ⟨"", false⟩⟩
    ⟨"POST", "/", [("X-H", ["v"])], Except.ok "ignored"⟩ rfl

/-- C5: every request to `/version` — any method, headers or body — is
answered with status 200 and the fixed string built from the `Name` and
`Version` constants (`"%s v%s\n"`). -/
theorem c5_version_fixed_string (env : Env) (req : HttpRequest) (hp : req.path = "/version") :
    (serve env req).1.status = 200 ∧
    (serve env req).1.body = Name ++ " v" ++ Version ++ "\n" ∧
    (serve env req).1.body = "divman's GoServer v1.0.0\n" := by
  rw [serve_version env req hp]
  exact ⟨rfl, rfl, by show Name ++ " v" ++ Version ++ "\n" = "divman's GoServer v1.0.0\n"; decide⟩

theorem c5_version_fixed_string_witness :
    (serve ⟨Except.error "down", ⟨"", false⟩⟩
        ⟨"PUT", "/version", [("A", ["b"])], Except.error "unreadable"⟩).1.status = 200 ∧
    (serve ⟨Except.error "down", ⟨"", false⟩⟩
        ⟨"PUT", "/version", [("A", ["b"])], Except.error "unreadable"⟩).1.body
        = Name ++ " v" ++ Version ++ "\n" ∧
    (serve ⟨Except.error "down", ⟨"", false⟩⟩
        ⟨"PUT", "/version", [("A", ["b"])], Except.error "unreadable"⟩).1.body
        = "divman's GoServer v1.0.0\n" :=
  c5_version_fixed_string ⟨Except.error "down", ⟨"", false⟩⟩
    ⟨"PUT", "/version", [("A", ["b"])], Except.error "unreadable"⟩ rfl

/-- C6: for every request to `/payload` whose body is fully readable,
the response has status 200; its body begins with the method line,
contains — after the `Headers:` label, when headers are present — one
`key: value` line per header value (every value of a multi-valued header
emitted individually, never coalesced or deduplicated, within-key order
= arrival order, as `emittedHeaderLines` flattens them), and ends with
`Payload: <body>`. -/
theorem c6_payload_dump (env : Env) (req : HttpRequest) (b : String)
    (hp : req.path = "/payload") (hb : req.body = Except.ok b) :
    (serve env req).1.status = 200 ∧
    (∃ rest, (serve env req).1.body = "Method: " ++ req.method ++ "\n" ++ rest) ∧
    (serve env req).1.body
      = "Method: " ++ req.method ++ "\n"
        ++ (if req.headers.length > 0 then
              "Headers:\n" ++ strJoin ((emittedHeaderLines req.headers).map (fun s => s ++ "\n"))
            else "")
        ++ ("Payload: " ++ b) ∧
    (∃ preText, (serve env req).1.body = preText ++ ("Payload: " ++ b)) := by
  rw [serve_payload env req hp, PayloadHandler_ok req b hb]
  refine ⟨rfl, ?_, ?_, ?_⟩
  · exact ⟨(if req.headers.length > 0 then "Headers:\n" ++ payloadHeaderBlock req.headers
        else "") ++ ("Payload: " ++ b), by simp [String.append_assoc]⟩
  · rw [payloadHeaderBlock_eq]
    simp [String.append_assoc]
  · exact ⟨"Method: " ++ req.method ++ "\n"
        ++ (if req.headers.length > 0 then "Headers:\n" ++ payloadHeaderBlock req.headers
            else ""), by simp [String.append_assoc]⟩

theorem c6_payload_dump_witness :
    (serve ⟨Except.ok "PONG", ⟨"", true⟩⟩
        ⟨"POST", "/payload", [("X-Test", ["a", "b"])], Except.ok "hello"⟩).1.status = 200 ∧
    (∃ rest, (serve ⟨Except.ok "PONG", ⟨"", true⟩⟩
        ⟨"POST", "/payload", [("X-Test", ["a", "b"])], Except.ok "hello"⟩).1.body
        = "Method: " ++ "POST" ++ "\n" ++ rest) ∧
    (serve ⟨Except.ok "PONG", ⟨"", true⟩⟩
        ⟨"POST", "/payload", [("X-Test", ["a", "b"])], Except.ok "hello"⟩).1.body
      = "Method: " ++ "POST" ++ "\n"
        ++ (if ([("X-Test", ["a", "b"])] : List (String × List String)).length > 0 then
              "Headers:\n"
                ++ strJoin ((emittedHeaderLines [("X-Test", ["a", "b"])]).map (fun s => s ++ "\n"))
            else "")
        ++ ("Payload: " ++ "hello") ∧
    (∃ preText, (serve ⟨Except.ok "PONG", ⟨"", true⟩⟩
        ⟨"POST", "/payload", [("X-Test", ["a", "b"])], Except.ok "hello"⟩).1.body
        = preText ++ ("Payload: " ++ "hello")) :=
  c6_payload_dump ⟨Except.ok "PONG", ⟨"", true⟩⟩
    ⟨"POST", "/payload", [("X-Test", ["a", "b"])], Except.ok "hello"⟩ "hello" rfl rfl

/-- C7: a request to `/payload` or `/kubecreate` whose body read fails
is answered with status 500 and an empty body: both handlers return
right after `WriteHeader(500)`, writing nothing. -/
theorem c7_body_read_failure_500 (env : Env) (req : HttpRequest) (e : String)
    (hp : req.path = "/payload" ∨ req.path = "/kubecreate")
    (hb : req.body = Except.error e) :
    (serve env req).1.status = 500 ∧ (serve env req).1.body = "" := by
  rcases hp with hp | hp
  · rw [serve_payload env req hp]
    unfold PayloadHandler
    rw [hb]
    exact ⟨rfl, rfl⟩
  · rw [serve_kubecreate env req hp]
    unfold KubernetesCreateHandler
    rw [hb]
    exact ⟨rfl, rfl⟩

theorem c7_body_read_failure_500_witness :
    (serve ⟨Except.ok "PONG", ⟨"", true⟩⟩
        ⟨"POST", "/payload", [], Except.error "stream error"⟩).1.status = 500 ∧
    (serve ⟨Except.ok "PONG", ⟨"", true⟩⟩
        ⟨"POST", "/payload", [], Except.error "stream error"⟩).1.body = "" :=
  c7_body_read_failure_500 ⟨Except.ok "PONG", ⟨"", true⟩⟩
    ⟨"POST", "/payload", [], Except.error "stream error"⟩ "stream error" (Or.inl rfl) rfl

/-- C8: a request to `/kubecreate` with a readable body invokes the
opaque `CreatePod` operation exactly once, answers with the default
status 200 and body `Pods: <result text>`, and the response is the same
whether the external operation succeeded or failed — only the result
text matters, the success flag is never observed. -/
theorem c8_kubecreate_behavior (env : Env) (req : HttpRequest) (b : String)
    (hp : req.path = "/kubecreate") (hb : req.body = Except.ok b) :
    (serve env req).2 = 1 ∧
    (serve env req).1.status = 200 ∧
    (serve env req).1.body = "Pods: " ++ env.podOp.text ∧
    (∀ op op' : PodOp, op.text = op'.text →
      KubernetesCreateHandler op req = KubernetesCreateHandler op' req) := by
  rw [serve_kubecreate env req hp]
  unfold KubernetesCreateHandler
  rw [hb]
  refine ⟨rfl, rfl, rfl, ?_⟩
  intro op op' hop
  rw [hop]

theorem c8_kubecreate_behavior_witness :
    (serve ⟨Except.ok "PONG", ⟨"pod created", false⟩⟩
        ⟨"POST", "/kubecreate", [], Except.ok "spec"⟩).2 = 1 ∧
    (serve ⟨Except.ok "PONG", ⟨"pod created", false⟩⟩
        ⟨"POST", "/kubecreate", [], Except.ok "spec"⟩).1.status = 200 ∧
    (serve ⟨Except.ok "PONG", ⟨"pod created", false⟩⟩
        ⟨"POST", "/kubecreate", [], Except.ok "spec"⟩).1.body
        = "Pods: " ++ (PodOp.mk "pod created" false).text ∧
    (∀ op op' : PodOp, op.text = op'.text →
      KubernetesCreateHandler op ⟨"POST", "/kubecreate", [], Except.ok "spec"⟩
        = KubernetesCreateHandler op' ⟨"POST", "/kubecreate", [], Except.ok "spec"⟩) :=
  c8_kubecreate_behavior ⟨Except.ok "PONG", ⟨"pod created", false⟩⟩
    ⟨"POST", "/kubecreate", [], Except.ok "spec"⟩ "spec" rfl rfl

/-- C9: serving is deterministic in the observed state: two identical
requests to `/version` or to `/ping`, against environments whose
Storage capability returns the same `Ping` outcome both times, produce
byte-identical responses (even if the rest of the environment, such as
the pod operation, differs). -/
theorem c9_idempotence (env env' : Env) (req req' : HttpRequest)
    (hreq : req = req') (hping : env.pingResult = env'.pingResult)
    (hp : req.path = "/version" ∨ req.path = "/ping") :
    (serve env req).1 = (serve env' req').1 := by
  subst hreq
  rcases hp with hp | hp
  · rw [serve_version env req hp, serve_version env' req hp]
  · rw [serve_ping env req hp, serve_ping env' req hp, hping]

theorem c9_idempotence_witness :
    (serve ⟨Except.ok "PONG", ⟨"a", true⟩⟩ ⟨"GET", "/ping", [], Except.ok ""⟩).1
      = (serve ⟨Except.ok "PONG", ⟨"b", false⟩⟩ ⟨"GET", "/ping", [], Except.ok ""⟩).1 :=
  c9_idempotence ⟨Except.ok "PONG", ⟨"a", true⟩⟩ ⟨Except.ok "PONG", ⟨"b", false⟩⟩
    ⟨"GET", "/ping", [], Except.ok ""⟩ ⟨"GET", "/ping", [], Except.ok ""⟩
    rfl rfl (Or.inr rfl)

/-- C10: `EnvOrDefault` returns the fallback both when the variable is
absent from the environment and when it is set to the empty string
(`os.Getenv` cannot tell the two apart), and returns the variable's
value exactly when that value is non-empty. -/
theorem c10_env_or_default (environ : String → Option String) (name fallback : String) :
    (environ name = none → EnvOrDefault environ name fallback = fallback) ∧
    (environ name = some "" → EnvOrDefault environ name fallback = fallback) ∧
    (∀ v : String, environ name = some v → v ≠ "" →
      EnvOrDefault environ name fallback = v) := by
  refine ⟨?_, ?_, ?_⟩
  · intro h
    simp [EnvOrDefault, Getenv, h]
  · intro h
    simp [EnvOrDefault, Getenv, h]
  · intro v hv hne
    simp [EnvOrDefault, Getenv, hv, hne]

/-- A three-variable sample environment for exercising `EnvOrDefault`:
one variable set non-empty, one set empty, all others unset. -/
def environSample : String → Option String := fun k =>
  if k = "SET" then some "value" else if k = "EMPTY" then some "" else none

theorem c10_env_or_default_witness :
    EnvOrDefault environSample "UNSET" "fb" = "fb" ∧
    EnvOrDefault environSample "EMPTY" "fb" = "fb" ∧
    EnvOrDefault environSample "SET" "fb" = "value" :=
  ⟨(c10_env_or_default environSample "UNSET" "fb").1 (by decide),
   (c10_env_or_default environSample "EMPTY" "fb").2.1 (by decide),
   (c10_env_or_default environSample "SET" "fb").2.2 "value" (by decide) (by decide)⟩

end PoolK8s
